import Mathlib

/-
Shallow embedding of src/TestGWMBDSL2/TestGWMBDSL2.cpp: a PEG grammar over
version-metadata predicates whose semantic actions compute an integer value
during the parse.  The grammar text (lines 58-84) and every semantic action
(lines 107-300) are taken from the source.  The PEG engine itself is
cpp-peglib, included by the source as peglib.h but not present under src/;
its machinery (ordered choice with backtracking, case-insensitive literal
matching, skippable blanks and tabs between tokens, whole-input matching)
is modelled from the spec, sections 4.1 and 6.
-/

/-- A version record, struct FileVersion (source lines 8-13); the four
fields are C ints, modelled as unbounded integers. -/
structure FileVersion where
  hash : Int
  size : Int
  fname0 : Int
  fname1 : Int
deriving DecidableEq

/-- The metadata table.  The C++ code keys an unordered map by the string
"v" ++ to_string(n); those key strings are in bijection with the integers n
produced by the NUMBER rule, so the table is an association list keyed by n. -/
abbrev VTable := List (Int × FileVersion)

/-- Lookup of the record stored for a version index. -/
def vfind : VTable → Int → Option FileVersion
  | [], _ => none
  | (k, v) :: rest, n => if k = n then some v else vfind rest n

/-- fileVersions.contains(val). -/
def vcontains (t : VTable) (n : Int) : Bool := (vfind t n).isSome

/-- unordered_map::operator[] — the non-const lookup the actions use: it
returns the stored record, default-inserting a value-initialised record
(all fields zero) when the key is absent.  The possibly-extended table is
returned alongside the record. -/
def vindex (t : VTable) (n : Int) : FileVersion × VTable :=
  match vfind t n with
  | some v => (v, t)
  | none => (⟨0, 0, 0, 0⟩, t ++ [(n, ⟨0, 0, 0, 0⟩)])

/-- The metadata table of the test program (source lines 98-102). -/
def exampleTable : VTable :=
  [(0, ⟨0, 150, 900, 980⟩), (1, ⟨1, 0, 911, 981⟩), (2, ⟨2, 200, 922, 982⟩)]

/-- Two's-complement wrap of an integer into the 32-bit int range, used to
model int-typed bit operations whose mathematical value exceeds the range. -/
def wrap32 (n : Int) : Int := (n + 2147483648) % 4294967296 - 2147483648

/-- The COMPARE_TYPE semantic action (source lines 107-129), state-passing:
sv.choice() selects hash (0), size (1), fname0 (2), fname1 (3) or the packed
fname (4); any other choice falls out of the switch and returns the numeral.
On a 32-bit int, f & 0xFFFF is f.emod 65536, and the packing
((fname0 & 0xFFFF) << 16) | (fname1 & 0xFFFF) ors two disjoint 16-bit
fields, hence equals wrap32 (hi * 65536 + lo).  When the version index is
absent from the table the numeral itself is returned.  The action reads the
table through operator[] (vindex), guarded by contains, and the table it
leaves behind is returned as the second component. -/
def compareTypeAct (t : VTable) (choice : Nat) (num : Int) : Int × VTable :=
  if vcontains t num then
    match choice with
    | 0 => ((vindex t num).1.hash, (vindex t num).2)
    | 1 => ((vindex t num).1.size, (vindex t num).2)
    | 2 => ((vindex t num).1.fname0, (vindex t num).2)
    | 3 => ((vindex t num).1.fname1, (vindex t num).2)
    | 4 =>
      (wrap32 (((vindex t num).1.fname0 % 65536) * 65536 +
          ((vindex (vindex t num).2 num).1.fname1 % 65536)),
        (vindex (vindex t num).2 num).2)
    | _ => (num, t)
  else (num, t)

/-- The value the COMPARE_TYPE action yields. -/
def compareTypeValue (t : VTable) (choice : Nat) (num : Int) : Int :=
  (compareTypeAct t choice num).1

/-- The EXISTS semantic action (source lines 167-180), state-passing: 1 when
every listed version index is in the table, 0 otherwise, stopping at the
first absent index.  It only calls contains, so the table is returned as is. -/
def existsAct (t : VTable) : List Int → Int × VTable
  | [] => (1, t)
  | n :: rest => if vcontains t n then existsAct t rest else (0, t)

/-- The value the EXISTS action yields. -/
def existsValue (t : VTable) (ns : List Int) : Int := (existsAct t ns).1

/-- static_cast of !static_cast of an int (NOT_OP action, source lines 131-137). -/
def notI (v : Int) : Int := if v = 0 then 1 else 0

/-- The COMP action's switch on the comparison operator choice
(source lines 182-208); the unreachable default yields 0. -/
def compApply (l : Int) (op : Nat) (r : Int) : Int :=
  match op with
  | 0 => if l = r then 1 else 0
  | 1 => if l = r then 0 else 1
  | 2 => if r ≤ l then 1 else 0
  | 3 => if l ≤ r then 1 else 0
  | 4 => if r < l then 1 else 0
  | 5 => if l < r then 1 else 0
  | _ => 0

/-- One step of the ARITHMETIC fold (source lines 210-233): add or
subtract according to the operator choice; other choices leave the
accumulator unchanged. -/
def arithStep (acc : Int) (op : Nat) (v : Int) : Int :=
  match op with
  | 0 => acc + v
  | 1 => acc - v
  | _ => acc

/-- One step of the TERM fold (source lines 235-263): multiply, divide or
take the remainder according to the operator choice.  C++ integer division
truncates toward zero (Int.tdiv) and % takes the dividend's sign (Int.tmod);
a division or modulus step whose right operand is 0 is skipped, leaving the
accumulator unchanged. -/
def termStep (acc : Int) (op : Nat) (v : Int) : Int :=
  match op with
  | 0 => acc * v
  | 1 => if v = 0 then acc else acc.tdiv v
  | 2 => if v = 0 then acc else acc.tmod v
  | _ => acc

/-- The OR_OP action's fold (source lines 139-151): or together the truth
of each operand, stopping once the accumulator is true. -/
def orBoolFold : Bool → List Int → Bool
  | acc, [] => acc
  | acc, v :: rest =>
    let acc2 := acc || (if v = 0 then false else true)
    if acc2 then true else orBoolFold acc2 rest

/-- The AND_OP action's fold (source lines 153-165): and together the truth
of each operand, stopping once the accumulator is false. -/
def andBoolFold : Bool → List Int → Bool
  | acc, [] => acc
  | acc, v :: rest =>
    let acc2 := acc && (if v = 0 then false else true)
    if acc2 then andBoolFold acc2 rest else false

/-- The OR_OP action: a single operand passes through unchanged; otherwise
the boolean fold of all operands, as 0 or 1. -/
def orAction : List Int → Int
  | [v] => v
  | vs => if orBoolFold false vs then 1 else 0

/-- The AND_OP action: a single operand passes through unchanged; otherwise
the boolean fold of all operands, as 0 or 1. -/
def andAction : List Int → Int
  | [v] => v
  | vs => if andBoolFold true vs then 1 else 0

/-- Lower-cased character code, for the case-insensitive literals ('or'i
and so on) of the grammar. -/
def lcN (c : Char) : Nat :=
  if 65 ≤ c.toNat ∧ c.toNat ≤ 90 then c.toNat + 32 else c.toNat

/-- A skippable character: blank or tab (%whitespace of the grammar). -/
def isWSChar (c : Char) : Bool :=
  if c = ' ' then true else if c = '\t' then true else false

/-- Drop leading blanks and tabs. -/
def skipWS : List Char → List Char
  | [] => []
  | c :: cs => if isWSChar c then skipWS cs else c :: cs

/-- Contiguous case-insensitive match of a literal, no blank skipping. -/
def matchCI : List Char → List Char → Option (List Char)
  | [], l => some l
  | _ :: _, [] => none
  | k :: ks, c :: cs => if lcN c = lcN k then matchCI ks cs else none

/-- Modelled from the spec: blanks and tabs are skippable between any two
tokens, so a token literal is matched after dropping leading ones (the
skipping engine lives in peglib.h, which is not under src/). -/
def matchKw (kw : List Char) (l : List Char) : Option (List Char) :=
  matchCI kw (skipWS l)

def kwOr : List Char := ("or").data

def kwAnd : List Char := ("and").data

def kwNot : List Char := ("not").data

def kwExists : List Char := ("exists").data

def kwHash : List Char := ("hash").data

def kwSize : List Char := ("size").data

def kwFname : List Char := ("fname").data

def kwFname0 : List Char := ("fname0").data

def kwFname1 : List Char := ("fname1").data

def kwLParen : List Char := ['(']

def kwRParen : List Char := [')']

def kwComma : List Char := [',']

def hexMark : List Char := ("0x").data

def isDecDigit (c : Char) : Bool := decide (48 ≤ c.toNat ∧ c.toNat ≤ 57)

def isHexDigit (c : Char) : Bool :=
  decide ((48 ≤ c.toNat ∧ c.toNat ≤ 57) ∨ (97 ≤ c.toNat ∧ c.toNat ≤ 102) ∨
    (65 ≤ c.toNat ∧ c.toNat ≤ 70))

def hexDigitVal (c : Char) : Nat :=
  if 48 ≤ c.toNat ∧ c.toNat ≤ 57 then c.toNat - 48
  else if 97 ≤ c.toNat then c.toNat - 87
  else c.toNat - 55

def decDigitsVal (ds : List Char) : Nat :=
  ds.foldl (fun a c => 10 * a + (c.toNat - 48)) 0

def hexDigitsVal (ds : List Char) : Nat :=
  ds.foldl (fun a c => 16 * a + hexDigitVal c) 0

/-- Longest prefix of characters satisfying p, and the rest. -/
def spanP (p : Char → Bool) : List Char → List Char × List Char
  | [] => ([], [])
  | c :: cs =>
    if p c then
      match spanP p cs with
      | (ds, r) => (c :: ds, r)
    else ([], c :: cs)

/-- Outcome of one rule at one position: fatal (an exception thrown by an
action escapes the parse), fail (the rule does not match here, backtrack),
or done with the synthesized value and the remaining input. -/
inductive PRes where
  | fatal : PRes
  | fail : PRes
  | done : Int → List Char → PRes
deriving DecidableEq

/-- DEC_NUMBER <- [0-9]+ (one or more decimal digits).  Modelled from the
spec: the value is the base-10 reading of the digits (the source's action
calls sv.token_to_number, which lives in peglib.h, not under src/; the spec
says a DEC literal is decoded base-10). -/
def parseDecNumber (l : List Char) : PRes :=
  match spanP isDecDigit l with
  | ([], _) => .fail
  | (ds, r) => .done (Int.ofNat (decDigitsVal ds)) r

/-- NUMBER <- HEX_NUMBER / DEC_NUMBER, with leading blanks skipped.
HEX_NUMBER is the case-insensitive 0x followed by one or more hex digits;
its action (source lines 292-295) is std::stoi(token, nullptr, 16), whose
value is the base-16 reading of the token and which throws
std::out_of_range — modelled as PRes.fatal — when that value exceeds
INT_MAX = 2147483647. -/
def parseNumber (l : List Char) : PRes :=
  let l1 := skipWS l
  match matchCI hexMark l1 with
  | some l2 =>
    match spanP isHexDigit l2 with
    | ([], _) => parseDecNumber l1
    | (ds, r) =>
      if 2147483647 < hexDigitsVal ds then .fatal
      else .done (Int.ofNat (hexDigitsVal ds)) r
  | none => parseDecNumber l1

def opEqEq : List Char := ['=', '=']

def opNeq : List Char := ['!', '=']

def opGe : List Char := ['>', '=']

def opLe : List Char := ['<', '=']

/-- COMP_OP <- '==' / '!=' / '>=' / '<=' / '>' / '<', in the grammar's
order, yielding sv.choice() (source lines 270-272). -/
def matchCompOp (l : List Char) : Option (Nat × List Char) :=
  let l1 := skipWS l
  match matchCI opEqEq l1 with
  | some r => some (0, r)
  | none =>
    match matchCI opNeq l1 with
    | some r => some (1, r)
    | none =>
      match matchCI opGe l1 with
      | some r => some (2, r)
      | none =>
        match matchCI opLe l1 with
        | some r => some (3, r)
        | none =>
          match matchCI ['>'] l1 with
          | some r => some (4, r)
          | none =>
            match matchCI ['<'] l1 with
            | some r => some (5, r)
            | none => none

/-- ADD_SUB_OP <- '+' / '-', yielding sv.choice(). -/
def matchAddSub (l : List Char) : Option (Nat × List Char) :=
  let l1 := skipWS l
  match matchCI ['+'] l1 with
  | some r => some (0, r)
  | none =>
    match matchCI ['-'] l1 with
    | some r => some (1, r)
    | none => none

/-- MUL_DIV_OP <- '*' / '/' / '%', yielding sv.choice(). -/
def matchMulDiv (l : List Char) : Option (Nat × List Char) :=
  let l1 := skipWS l
  match matchCI ['*'] l1 with
  | some r => some (0, r)
  | none =>
    match matchCI ['/'] l1 with
    | some r => some (1, r)
    | none =>
      match matchCI ['%'] l1 with
      | some r => some (2, r)
      | none => none

/-- One alternative of COMPARE_TYPE: the attribute keyword then a NUMBER.
A fatal outcome of the number action propagates; a match failure lets the
caller try the next alternative at the original position. -/
def attrAlt (t : VTable) (kw : List Char) (choice : Nat) (l : List Char) : PRes :=
  match matchKw kw l with
  | none => .fail
  | some l1 =>
    match parseNumber l1 with
    | .fatal => .fatal
    | .fail => .fail
    | .done n r => .done (compareTypeValue t choice n) r

/-- COMPARE_TYPE <- HASH NUMBER / SIZE NUMBER / FNAME0 NUMBER /
FNAME1 NUMBER / FNAME NUMBER (source line 72): a PEG ordered choice, each
alternative retried from the original position when the previous one fails. -/
def parseCompareType (t : VTable) (l : List Char) : PRes :=
  match attrAlt t kwHash 0 l with
  | .fail =>
    match attrAlt t kwSize 1 l with
    | .fail =>
      match attrAlt t kwFname0 2 l with
      | .fail =>
        match attrAlt t kwFname1 3 l with
        | .fail => attrAlt t kwFname 4 l
        | x => x
      | x => x
    | x => x
  | x => x

/-- The closing parenthesis of EXISTS, applied to the version indices
collected so far. -/
def closeExists (t : VTable) (acc : List Int) (l : List Char) : PRes :=
  match matchKw kwRParen l with
  | none => .fail
  | some r => .done (existsValue t acc) r

/-- The (',' HASH NUMBER)* loop of EXISTS: when a comma matches but the
rest of the iteration does not, the loop backtracks to before the comma
and the closing parenthesis is required there. -/
def existsArgsF : Nat → VTable → List Int → List Char → PRes
  | 0, t, acc, l => closeExists t acc l
  | f + 1, t, acc, l =>
    match matchKw kwComma l with
    | none => closeExists t acc l
    | some rc =>
      match matchKw kwHash rc with
      | none => closeExists t acc l
      | some rh =>
        match parseNumber rh with
        | .fatal => .fatal
        | .fail => closeExists t acc l
        | .done n r2 => existsArgsF f t (acc ++ [n]) r2

/-- EXISTS <- 'exists'i '(' HASH NUMBER (',' HASH NUMBER)* ')' (source
line 70), with the EXISTS action applied to the collected indices. -/
def parseExistsF (f : Nat) (t : VTable) (l : List Char) : PRes :=
  match matchKw kwExists l with
  | none => .fail
  | some l1 =>
    match matchKw kwLParen l1 with
    | none => .fail
    | some l2 =>
      match matchKw kwHash l2 with
      | none => .fail
      | some l3 =>
        match parseNumber l3 with
        | .fatal => .fatal
        | .fail => .fail
        | .done n r => existsArgsF f t [n] r

/-- The (MUL_DIV_OP FACTOR)* loop of TERM, folding with termStep as the
TERM action does; pF parses one FACTOR.  When the operator matches but the
factor does not, the loop stops before the operator.  The fuel bounds the
number of iterations; each iteration consumes at least the operator. -/
def termLoopF (pF : VTable → List Char → PRes) : Nat → VTable → Int → List Char → PRes
  | 0, t, acc, l =>
    match matchMulDiv l with
    | none => .done acc l
    | some (_, l1) =>
      match pF t l1 with
      | .fatal => .fatal
      | _ => .done acc l
  | g + 1, t, acc, l =>
    match matchMulDiv l with
    | none => .done acc l
    | some (op, l1) =>
      match pF t l1 with
      | .fatal => .fatal
      | .fail => .done acc l
      | .done v r => termLoopF pF g t (termStep acc op v) r

/-- The (ADD_SUB_OP TERM)* loop of ARITHMETIC, folding with arithStep as
the ARITHMETIC action does; pT parses one TERM. -/
def arithLoopF (pT : VTable → List Char → PRes) : Nat → VTable → Int → List Char → PRes
  | 0, t, acc, l =>
    match matchAddSub l with
    | none => .done acc l
    | some (_, l1) =>
      match pT t l1 with
      | .fatal => .fatal
      | _ => .done acc l
  | g + 1, t, acc, l =>
    match matchAddSub l with
    | none => .done acc l
    | some (op, l1) =>
      match pT t l1 with
      | .fatal => .fatal
      | .fail => .done acc l
      | .done v r => arithLoopF pT g t (arithStep acc op v) r

/-- The ('and'i COMP)* loop of AND_OP, collecting the operand values; pC
parses one COMP.  At the end the AND_OP action is applied to all collected
values. -/
def andLoopF (pC : VTable → List Char → PRes) : Nat → VTable → List Int → List Char → PRes
  | 0, t, vs, l =>
    match matchKw kwAnd l with
    | none => .done (andAction vs) l
    | some l1 =>
      match pC t l1 with
      | .fatal => .fatal
      | _ => .done (andAction vs) l
  | g + 1, t, vs, l =>
    match matchKw kwAnd l with
    | none => .done (andAction vs) l
    | some l1 =>
      match pC t l1 with
      | .fatal => .fatal
      | .fail => .done (andAction vs) l
      | .done v r => andLoopF pC g t (vs ++ [v]) r

/-- The ('or'i AND_OP)* loop of OR_OP, collecting the operand values; pA
parses one AND_OP.  At the end the OR_OP action is applied to all collected
values. -/
def orLoopF (pA : VTable → List Char → PRes) : Nat → VTable → List Int → List Char → PRes
  | 0, t, vs, l =>
    match matchKw kwOr l with
    | none => .done (orAction vs) l
    | some l1 =>
      match pA t l1 with
      | .fatal => .fatal
      | _ => .done (orAction vs) l
  | g + 1, t, vs, l =>
    match matchKw kwOr l with
    | none => .done (orAction vs) l
    | some l1 =>
      match pA t l1 with
      | .fatal => .fatal
      | .fail => .done (orAction vs) l
      | .done v r => orLoopF pA g t (vs ++ [v]) r

/-- PRIMARY <- (EXISTS / COMPARE_TYPE / '(' EXPR ')') WHITESPACE (source
line 67): the three alternatives in order, then trailing blanks consumed;
recE parses the parenthesised EXPR. -/
def mkPRIMARY (recE : VTable → List Char → PRes) (f : Nat) (t : VTable)
    (l : List Char) : PRes :=
  match parseExistsF f t l with
  | .fatal => .fatal
  | .done v r => .done v (skipWS r)
  | .fail =>
    match parseCompareType t l with
    | .fatal => .fatal
    | .done v r => .done v (skipWS r)
    | .fail =>
      match matchKw kwLParen l with
      | none => .fail
      | some l1 =>
        match recE t l1 with
        | .fatal => .fatal
        | .fail => .fail
        | .done v r =>
          match matchKw kwRParen r with
          | none => .fail
          | some r1 => .done v (skipWS r1)

/-- FACTOR <- PRIMARY / NUMBER (source line 66). -/
def mkFACTOR (recE : VTable → List Char → PRes) (f : Nat) (t : VTable)
    (l : List Char) : PRes :=
  match mkPRIMARY recE f t l with
  | .fail => parseNumber l
  | x => x

/-- TERM <- FACTOR (MUL_DIV_OP FACTOR)* (source line 65). -/
def mkTERM (recE : VTable → List Char → PRes) (f : Nat) (t : VTable)
    (l : List Char) : PRes :=
  match mkFACTOR recE f t l with
  | .done v r => termLoopF (mkFACTOR recE f) f t v r
  | x => x

/-- ARITHMETIC <- TERM (ADD_SUB_OP TERM)* (source line 64). -/
def mkARITH (recE : VTable → List Char → PRes) (f : Nat) (t : VTable)
    (l : List Char) : PRes :=
  match mkTERM recE f t l with
  | .done v r => arithLoopF (mkTERM recE f) f t v r
  | x => x

/-- NOT_OP <- ARITHMETIC / 'not'i COMP (source line 63), with the NOT_OP
action: the arithmetic alternative passes through, the second applies the
logical complement to the inner comparison's value; recC parses the COMP
behind 'not'. -/
def mkNOT (recE recC : VTable → List Char → PRes) (f : Nat) (t : VTable)
    (l : List Char) : PRes :=
  match mkARITH recE f t l with
  | .fatal => .fatal
  | .done v r => .done v r
  | .fail =>
    match matchKw kwNot l with
    | none => .fail
    | some l1 =>
      match recC t l1 with
      | .fatal => .fatal
      | .fail => .fail
      | .done v r => .done (notI v) r

/-- COMP <- NOT_OP (COMP_OP NOT_OP)? (source line 62), with the COMP
action: one operand passes through, two are combined by the matched
operator; a failed optional tail backtracks. -/
def mkCOMP (recE recC : VTable → List Char → PRes) (f : Nat) (t : VTable)
    (l : List Char) : PRes :=
  match mkNOT recE recC f t l with
  | .fatal => .fatal
  | .fail => .fail
  | .done v r =>
    match matchCompOp r with
    | none => .done v r
    | some (op, r1) =>
      match mkNOT recE recC f t r1 with
      | .fatal => .fatal
      | .fail => .done v r
      | .done v2 r2 => .done (compApply v op v2) r2

/-- AND_OP <- COMP ('and'i COMP)* (source line 61). -/
def mkAND (recC : VTable → List Char → PRes) (f : Nat) (t : VTable)
    (l : List Char) : PRes :=
  match recC t l with
  | .fatal => .fatal
  | .fail => .fail
  | .done v r => andLoopF recC f t [v] r

/-- OR_OP <- AND_OP ('or'i AND_OP)* (source line 60). -/
def mkOR (recC : VTable → List Char → PRes) (f : Nat) (t : VTable)
    (l : List Char) : PRes :=
  match mkAND recC f t l with
  | .fatal => .fatal
  | .fail => .fail
  | .done v r => orLoopF (mkAND recC f) f t [v] r

/-- EXPR <- OR_OP (source line 59), as a function of the COMP in scope. -/
def mkEXPR (recC : VTable → List Char → PRes) (f : Nat) : VTable → List Char → PRes :=
  mkOR recC f

/-- The COMP rule, tied recursively: the grammar's two cycles — 'not'
recursing into COMP and a parenthesised EXPR inside PRIMARY — descend at
one less fuel; every cycle consumes input, so fuel beyond the input length
never runs out. -/
def parseCOMPf : Nat → VTable → List Char → PRes
  | 0, _, _ => .fail
  | f + 1, t, l => mkCOMP (mkEXPR (parseCOMPf f) f) (parseCOMPf f) (f + 1) t l

/-- The AND_OP rule at a given fuel. -/
def parseANDf (f : Nat) : VTable → List Char → PRes := mkAND (parseCOMPf f) f

/-- The OR_OP rule at a given fuel. -/
def parseORf (f : Nat) : VTable → List Char → PRes := mkOR (parseCOMPf f) f

/-- The EXPR rule at a given fuel. -/
def parseEXPRf (f : Nat) : VTable → List Char → PRes := parseORf f

/-- The ARITHMETIC rule at a given fuel, with the same recursive ties as
parseCOMPf gives its inner occurrence. -/
def parseARITHf : Nat → VTable → List Char → PRes
  | 0, _, _ => .fail
  | f + 1, t, l => mkARITH (mkEXPR (parseCOMPf f) f) (f + 1) t l

/-- Outcome of one evaluation call (spec section 6): an integer value, a
clean failure to recognise the input, or — what the spec says cannot
happen — a fatal outcome, an exception escaping the parse. -/
inductive EvalOutcome where
  | value : Int → EvalOutcome
  | synFail : EvalOutcome
  | fatal : EvalOutcome
deriving DecidableEq

/-- parser::parse: the whole input must be consumed up to trailing
skippable blanks; otherwise the parse fails with no value. -/
def evalFuel (f : Nat) (t : VTable) (l : List Char) : EvalOutcome :=
  match parseEXPRf f t l with
  | .fatal => .fatal
  | .fail => .synFail
  | .done v r => if skipWS r = [] then .value v else .synFail

/-- One evaluation call on a string, with fuel ample for its length. -/
def evalString (t : VTable) (s : String) : EvalOutcome :=
  evalFuel (s.length + 4) t s.data

theorem sanity_check_suite :
    evalString exampleTable ("hash0 == hash0") = .value 1 ∧
    evalString exampleTable ("hash0 == hash1") = .value 0 ∧
    evalString exampleTable ("size2 > size1") = .value 1 ∧
    evalString exampleTable ("(hash2 == hash1 or hash2 == hash0) or size1 == 0 and size1 == 1") = .value 0 ∧
    evalString exampleTable ("1 or 2") = .value 1 ∧
    evalString exampleTable ("1 and 2") = .value 1 ∧
    evalString exampleTable ("not exists(hash3)") = .value 1 ∧
    evalString exampleTable ("hash2 == hash1 not or hash2 == hash0") = .synFail ∧
    evalString exampleTable ("size0 == 100 + 50 + 1 + 1 - 2") = .value 1 ∧
    evalString exampleTable ("2 + 3 * 4 == 14") = .value 1 ∧
    evalString exampleTable ("(NOT (HASH1 == HASH0) AND NOT (SIZE2 < SIZE1))") = .value 1 ∧
    evalString exampleTable ("21 % 5 == 1") = .value 1 ∧
    evalString exampleTable ("fname00 == 900 and fname10 == 980") = .value 1 ∧
    evalString exampleTable ("((5 + 5) * 2) / 5 == 4") = .value 1 ∧
    evalString exampleTable ("not (exists(hash0) or exists(hash0))") = .value 0 ∧
    evalString exampleTable ("not not not size0 == 150") = .value 0 ∧
    evalString exampleTable ("(exists(hash0) and not (size1 or not hash2))") = .value 1 := by
  decide

/-- An AND_OP loop that meets no further 'and' keyword stops and applies
the AND_OP action to the collected values. -/
theorem andLoopF_stop (pC : VTable → List Char → PRes) (f : Nat) (t : VTable) (vs : List Int)
    (l : List Char) (h : matchKw kwAnd l = none) :
    andLoopF pC f t vs l = .done (andAction vs) l := by
  cases f <;> simp [andLoopF, h]

/-- An AND_OP loop that matches 'and' and then a COMP collects the COMP's
value and continues behind it. -/
theorem andLoopF_cont (pC : VTable → List Char → PRes) (f : Nat) (t : VTable) (vs : List Int)
    (l l1 : List Char) (v : Int) (r : List Char)
    (h : matchKw kwAnd l = some l1) (hp : pC t l1 = .done v r) :
    andLoopF pC (f + 1) t vs l = andLoopF pC f t (vs ++ [v]) r := by
  simp [andLoopF, h, hp]

/-- An OR_OP loop that meets no further 'or' keyword stops and applies the
OR_OP action to the collected values. -/
theorem orLoopF_stop (pA : VTable → List Char → PRes) (f : Nat) (t : VTable) (vs : List Int)
    (l : List Char) (h : matchKw kwOr l = none) :
    orLoopF pA f t vs l = .done (orAction vs) l := by
  cases f <;> simp [orLoopF, h]

/-- An OR_OP loop that matches 'or' and then an AND_OP collects the
AND_OP's value and continues behind it. -/
theorem orLoopF_cont (pA : VTable → List Char → PRes) (f : Nat) (t : VTable) (vs : List Int)
    (l l1 : List Char) (v : Int) (r : List Char)
    (h : matchKw kwOr l = some l1) (hp : pA t l1 = .done v r) :
    orLoopF pA (f + 1) t vs l = orLoopF pA f t (vs ++ [v]) r := by
  simp [orLoopF, h, hp]

/-- The OR_OP action over one operand and the AND_OP action's combination
of two more is exactly the A or (B and C) truth table, as 0 or 1. -/
theorem or_and_group (a b c : Int) :
    orAction [a, andAction [b, c]] = if a ≠ 0 ∨ (b ≠ 0 ∧ c ≠ 0) then 1 else 0 := by
  by_cases ha : a = 0 <;> by_cases hb : b = 0 <;> by_cases hc : c = 0 <;>
    simp [orAction, orBoolFold, andAction, andBoolFold, ha, hb, hc]

/-- C1: in the TERM fold, a division or modulus step whose right operand is
0 raises no error and leaves the accumulator unchanged for that step, so
evaluating "5 / 0 == 5" (and likewise "5 % 0 == 5") succeeds with value 1. -/
theorem div_mod_zero_skipped :
    (∀ acc : Int, termStep acc 1 0 = acc ∧ termStep acc 2 0 = acc) ∧
    evalString exampleTable ("5 / 0 == 5") = .value 1 ∧
    evalString exampleTable ("5 % 0 == 5") = .value 1 := by
  refine ⟨fun acc => ⟨by simp [termStep], by simp [termStep]⟩, by decide, by decide⟩

/-- C2: an attribute reference whose version index is absent from the
metadata table evaluates to the numeral itself, for every attribute choice;
in particular "hash9 == 9" is 1 under the example table, which has no
index 9. -/
theorem missing_index_falls_back :
    (∀ (t : VTable) (choice : Nat) (n : Int),
      vfind t n = none → compareTypeValue t choice n = n) ∧
    evalString exampleTable ("hash9 == 9") = .value 1 := by
  refine ⟨fun t choice n h => ?_, by decide⟩
  simp [compareTypeValue, compareTypeAct, vcontains, h]

/-- C3: the HEX_NUMBER action decodes with std::stoi, which throws an
uncaught std::out_of_range for a hex literal above INT_MAX, so evaluation
of "0x80000000" ends fatally rather than with a value or a clean failure;
the largest in-range literal "0x7FFFFFFF" still yields its value. -/
theorem hex_overflow_is_fatal :
    evalString exampleTable ("0x80000000") = .fatal ∧
    evalString exampleTable ("0x7FFFFFFF") = .value 2147483647 := by
  exact ⟨by decide, by decide⟩

/-- C4: for a version index present in the table, the combined fname
reference packs the low 16 bits of fname0 into bits 16-31 and the low 16
bits of fname1 into bits 0-15 of the 32-bit result: reading the result's
two's-complement 32-bit image, its low 16 bits are fname1's low 16 bits
and its high 16 bits are fname0's low 16 bits. -/
theorem fname_packs_low16_pairs (t : VTable) (n : Int) (v : FileVersion)
    (h : vfind t n = some v) :
    ((compareTypeValue t 4 n) % 4294967296) % 65536 = v.fname1 % 65536 ∧
    ((compareTypeValue t 4 n) % 4294967296) / 65536 = v.fname0 % 65536 := by
  have hc : vcontains t n = true := by simp [vcontains, h]
  simp only [compareTypeValue, compareTypeAct, hc, if_true, vindex, h, wrap32]
  constructor <;> omega

/-- Witness for C4 at version index 0 of the example table: the packed
fname of v0 = (hash 0, size 150, fname0 900, fname1 980) splits back into
980 and 900. -/
theorem fname_packs_low16_pairs_witness :
    ((compareTypeValue exampleTable 4 0) % 4294967296) % 65536 = (980 : Int) % 65536 ∧
    ((compareTypeValue exampleTable 4 0) % 4294967296) / 65536 = (900 : Int) % 65536 :=
  fname_packs_low16_pairs exampleTable 0 ⟨0, 150, 900, 980⟩ (by decide)

/-- C5: an exists(...) result is 1 exactly when every listed version index
is in the metadata table, and 0 otherwise; under the example table
"exists(hash0, hash1)" is 1 and "exists(hash3, hash1)" is 0. -/
theorem exists_checks_all_indices :
    (∀ (t : VTable) (ns : List Int),
      (existsValue t ns = 1 ↔ ∀ n ∈ ns, vcontains t n = true) ∧
      (existsValue t ns = 1 ∨ existsValue t ns = 0)) ∧
    evalString exampleTable ("exists(hash0, hash1)") = .value 1 ∧
    evalString exampleTable ("exists(hash3, hash1)") = .value 0 := by
  refine ⟨fun t ns => ?_, by decide, by decide⟩
  induction ns with
  | nil => simp [existsValue, existsAct]
  | cons n rest ih =>
    by_cases hc : vcontains t n = true
    · exact ⟨by simpa [existsValue, existsAct, hc] using ih.1,
        by simpa [existsValue, existsAct, hc] using ih.2⟩
    · simp [existsValue, existsAct, hc]

/-- C6: 'and' binds tighter than 'or'.  For any input that the parser
decomposes as a COMP A, the keyword 'or', a COMP B, the keyword 'and' and
a COMP C, the evaluation applies the AND_OP action to B and C first and
the OR_OP action to A and that combination — the grouping A or (B and C) —
and on inputs where the two groupings disagree the evaluated value is the
A or (B and C) one, never the (A or B) and C one. -/
theorem and_binds_tighter_than_or (F : Nat) (t : VTable)
    (l r1 l2 r2 l3 r3 : List Char) (a b c : Int)
    (h1 : parseCOMPf (F + 1) t l = .done a r1)
    (h2 : matchKw kwAnd r1 = none)
    (h3 : matchKw kwOr r1 = some l2)
    (h4 : parseCOMPf (F + 1) t l2 = .done b r2)
    (h5 : matchKw kwAnd r2 = some l3)
    (h6 : parseCOMPf (F + 1) t l3 = .done c r3)
    (h7 : matchKw kwAnd r3 = none)
    (h8 : matchKw kwOr r3 = none)
    (h9 : skipWS r3 = []) :
    evalFuel (F + 1) t l = .value (if a ≠ 0 ∨ (b ≠ 0 ∧ c ≠ 0) then 1 else 0) ∧
    evalString exampleTable ("1 or 0 and 0") = evalString exampleTable ("1 or (0 and 0)") ∧
    evalString exampleTable ("1 or 0 and 0") ≠ evalString exampleTable ("(1 or 0) and 0") := by
  refine ⟨?_, by decide, by decide⟩
  have hA1 : mkAND (parseCOMPf (F + 1)) (F + 1) t l = .done a r1 := by
    simp only [mkAND, h1]
    rw [andLoopF_stop _ _ _ _ _ h2]
    rfl
  have hA2 : mkAND (parseCOMPf (F + 1)) (F + 1) t l2 = .done (andAction [b, c]) r3 := by
    simp only [mkAND, h4]
    rw [andLoopF_cont _ _ _ _ _ _ _ _ h5 h6, andLoopF_stop _ _ _ _ _ h7]
    rfl
  have hO : parseEXPRf (F + 1) t l = .done (orAction [a, andAction [b, c]]) r3 := by
    simp only [parseEXPRf, parseORf, mkOR, hA1]
    rw [orLoopF_cont _ _ _ _ _ _ _ _ h3 hA2, orLoopF_stop _ _ _ _ _ h8]
    rfl
  simp [evalFuel, hO, h9, or_and_group]

/-- Witness for C6 on the input "1 or 0 and 0" under the example table,
whose evaluation fuel is 16: the value is 1, the A or (B and C) reading
(the (A or B) and C reading would be 0). -/
theorem and_binds_tighter_than_or_witness :
    evalFuel 16 exampleTable (("1 or 0 and 0").data) = .value 1 := by
  have h := and_binds_tighter_than_or 15 exampleTable
    (("1 or 0 and 0").data) ((" or 0 and 0").data) ((" 0 and 0").data)
    ((" and 0").data) ((" 0").data) ([]) 1 0 0
    (by decide) (by decide) (by decide) (by decide) (by decide) (by decide)
    (by decide) (by decide) (by decide)
  simpa using h.1

/-- C7: double negation coerces to 0 or 1.  For any input that the parser
decomposes as 'not', 'not' and a COMP E (the arithmetic alternative of
NOT_OP failing at both positions), evaluating it yields E's value coerced
to 0 or 1: 0 when E's value is 0 and 1 when it is any other integer. -/
theorem double_negation_coerces (F : Nat) (t : VTable)
    (l l1 l2 r : List Char) (e : Int)
    (h1 : parseARITHf (F + 2) t l = .fail)
    (h2 : matchKw kwNot l = some l1)
    (h3 : parseARITHf (F + 1) t l1 = .fail)
    (h4 : matchKw kwNot l1 = some l2)
    (h5 : parseCOMPf F t l2 = .done e r)
    (h6 : matchCompOp r = none)
    (h7 : matchKw kwAnd r = none)
    (h8 : matchKw kwOr r = none)
    (h9 : skipWS r = []) :
    evalFuel (F + 2) t l = .value (notI (notI e)) ∧
    notI (notI e) = (if e = 0 then 0 else 1) := by
  have hnn : notI (notI e) = if e = 0 then 0 else 1 := by
    by_cases he : e = 0 <;> simp [notI, he]
  refine ⟨?_, hnn⟩
  have h3' : mkARITH (mkEXPR (parseCOMPf F) F) (F + 1) t l1 = .fail := by
    have h := h3
    rwa [parseARITHf] at h
  have h1' : mkARITH (mkEXPR (parseCOMPf (F + 1)) (F + 1)) (F + 2) t l = .fail := by
    have h := h1
    rwa [parseARITHf] at h
  have hC1 : parseCOMPf (F + 1) t l1 = .done (notI e) r := by
    have e2 : parseCOMPf (F + 1) t l1 =
        mkCOMP (mkEXPR (parseCOMPf F) F) (parseCOMPf F) (F + 1) t l1 := rfl
    rw [e2]
    simp only [mkCOMP, mkNOT, h3', h4, h5, h6]
  have hC : parseCOMPf (F + 2) t l = .done (notI (notI e)) r := by
    have e1 : parseCOMPf (F + 2) t l =
        mkCOMP (mkEXPR (parseCOMPf (F + 1)) (F + 1)) (parseCOMPf (F + 1)) (F + 2) t l := rfl
    rw [e1]
    simp only [mkCOMP, mkNOT, h1', h2, hC1, h6]
  have hA : mkAND (parseCOMPf (F + 2)) (F + 2) t l = .done (notI (notI e)) r := by
    simp only [mkAND, hC]
    rw [andLoopF_stop _ _ _ _ _ h7]
    rfl
  have hO : parseEXPRf (F + 2) t l = .done (notI (notI e)) r := by
    simp only [parseEXPRf, parseORf, mkOR, hA]
    rw [orLoopF_stop _ _ _ _ _ h8]
    rfl
  simp [evalFuel, hO, h9]

/-- Witness for C7 on the input "not not size0 == 150" under the example
table, whose evaluation fuel is 24: the inner comparison is 1 and the
doubly negated value is 1. -/
theorem double_negation_coerces_witness :
    evalFuel 24 exampleTable (("not not size0 == 150").data) = .value 1 := by
  have h := double_negation_coerces 22 exampleTable
    (("not not size0 == 150").data) ((" not size0 == 150").data)
    ((" size0 == 150").data) ([]) 1
    (by decide) (by decide) (by decide) (by decide) (by decide) (by decide)
    (by decide) (by decide) (by decide)
  simpa [notI] using h.1

/-- C8: hex and decimal literals denoting the same number are
interchangeable: 0xC8, 0xc8 and 0XC8 each decode to 200, and the
comparisons of size2 against each literal evaluate exactly as against 200
(namely to 1, version 2's size attribute being 200). -/
theorem hex_dec_literals_agree :
    parseNumber (("0xC8").data) = .done 200 [] ∧
    parseNumber (("0xc8").data) = .done 200 [] ∧
    parseNumber (("0XC8").data) = .done 200 [] ∧
    parseNumber (("200").data) = .done 200 [] ∧
    evalString exampleTable ("size2 == 0xC8") = evalString exampleTable ("size2 == 200") ∧
    evalString exampleTable ("size2 == 0xc8") = evalString exampleTable ("size2 == 200") ∧
    evalString exampleTable ("size2 == 0XC8") = evalString exampleTable ("size2 == 200") ∧
    evalString exampleTable ("size2 == 200") = .value 1 := by
  decide

/-- C9: evaluation never mutates the metadata table: the only two semantic
actions that touch the table — COMPARE_TYPE, which reads records through
the non-const operator[], and EXISTS — return the table exactly as it was,
for every table, every attribute choice, every numeral and every index
list; no record is created, updated or destroyed. -/
theorem eval_never_mutates_table :
    (∀ (t : VTable) (choice : Nat) (n : Int), (compareTypeAct t choice n).2 = t) ∧
    (∀ (t : VTable) (ns : List Int), (existsAct t ns).2 = t) := by
  constructor
  · intro t choice n
    cases h : vfind t n with
    | none => simp [compareTypeAct, vcontains, h]
    | some v =>
      have hc : vcontains t n = true := by simp [vcontains, h]
      match choice with
      | 0 | 1 | 2 | 3 | 4 => simp [compareTypeAct, hc, vindex, h]
      | (m + 5) => simp [compareTypeAct, hc]
  · intro t ns
    induction ns with
    | nil => rfl
    | cons n rest ih => by_cases hc : vcontains t n <;> simp [existsAct, hc, ih]

/-- C10: the bare input "fname0" parses as the combined packed-fname
reference of version 0 — the FNAME0-then-NUMBER alternative matches the
keyword but finds no numeral and backtracks, and the later FNAME NUMBER
alternative matches — so its value is the packed fname of v0 (58983380),
not v0's fname0 attribute (900); likewise "fname1" is the packed fname of
v1 (59704277), not v1's fname1 attribute (981). -/
theorem bare_fname0_is_packed_ref :
    evalString exampleTable ("fname0") = .value (compareTypeValue exampleTable 4 0) ∧
    compareTypeValue exampleTable 4 0 = 58983380 ∧
    compareTypeValue exampleTable 2 0 = 900 ∧
    evalString exampleTable ("fname1") = .value (compareTypeValue exampleTable 4 1) ∧
    compareTypeValue exampleTable 4 1 = 59704277 ∧
    compareTypeValue exampleTable 3 1 = 981 := by
  decide
